import Mathlib

/-!
Verification of the retrieval engine of the survey-analysis repository.

The development shallowly embeds the Python sources:
  backend/core/services/embeddings_service.py   (EmbeddingStore)
  backend/core/services/citation_resolver.py    (resolve_citations)
  backend/core/agents/tools/semantic_search_tool.py
    (format_results_with_ids, multi_query_search)

Floating point similarity scores are modelled by rationals; pandas
DataFrames by Lean lists of structures; the external S3 Vectors index and
the Bedrock embedding model by explicit function parameters, so that their
failure behaviour can be quantified over.
-/

namespace SurveyAnalysis

/-- A search hit row, as built by EmbeddingStore.search from one vector
returned by the index (embeddings_service.py lines 380-399). -/
structure SearchHit where
  uid : String
  similarity_score : ℚ
  text_answer : String
  question : String
  event_name : String
  event_code : String
  question_type : String
  nps_group : String
  response_id : String
  csv_source : String
  deriving Repr, DecidableEq

/-- A raw vector as returned by the query_vectors call of the index:
metadata fields plus a distance. -/
structure RawVector where
  uid : String
  distance : ℚ
  text_answer : String
  question : String
  event_name : String
  event_code : String
  question_type : String
  nps_group : String
  response_id : String
  csv_source : String
  deriving Repr, DecidableEq

/-- Conversion of one raw index vector to a search hit:
similarity_score is 1 - distance (embeddings_service.py line 389). -/
def rawToHit (v : RawVector) : SearchHit :=
  { uid := v.uid
    similarity_score := 1 - v.distance
    text_answer := v.text_answer
    question := v.question
    event_name := v.event_name
    event_code := v.event_code
    question_type := v.question_type
    nps_group := v.nps_group
    response_id := v.response_id
    csv_source := v.csv_source }

/-- EmbeddingStore.search, result-construction part (embeddings_service.py
lines 367-401): the query_vectors call either raises (modelled as an
Except error) or returns a list of raw vectors.  On an error the method
returns an empty DataFrame; on an empty vector list likewise; otherwise
each vector becomes a SearchHit row. -/
def searchFromIndex (queryOutcome : Except String (List RawVector)) :
    List SearchHit :=
  match queryOutcome with
  | .error _ => []
  | .ok vectors => if vectors.isEmpty then [] else vectors.map rawToHit

/-! ### The multi-query search session (semantic_search_tool.py lines 113-175)

The per-query index search is abstracted as a function from the query
string and the exclusion list to either a failure (an exception inside
EmbeddingStore.search or below it) or a list of hits. -/

/-- State of the searching loop of multi_query_search: the accumulated
seen_uids list, the list of non-empty per-query result tables, and the
count of successful queries. -/
structure SearchState where
  seen_uids : List String
  all_dfs : List (List SearchHit)
  successful_queries : Nat
  deriving Repr, DecidableEq

/-- The python blank test `not query.strip()`: a string strips to the
empty string exactly when every character is whitespace. -/
def isBlankQuery (s : String) : Bool := s.data.all Char.isWhitespace

/-- One iteration of the searching loop (semantic_search_tool.py lines
119-150): blank queries are skipped; a failed search is skipped; an empty
result table is skipped; otherwise the uids of the results are appended to
seen_uids and the table to all_dfs. -/
def searchStep (searchFn : String → List String → Except String (List SearchHit))
    (st : SearchState) (query : String) : SearchState :=
  if isBlankQuery query then st
  else
    match searchFn query st.seen_uids with
    | .error _ => st
    | .ok results =>
      if results.isEmpty then st
      else
        { seen_uids := st.seen_uids ++ results.map SearchHit.uid
          all_dfs := st.all_dfs ++ [results]
          successful_queries := st.successful_queries + 1 }

/-- The searching phase of multi_query_search: fold over the expanded
queries starting from the empty state. -/
def runSearchPhase (searchFn : String → List String → Except String (List SearchHit))
    (queries : List String) : SearchState :=
  queries.foldl (searchStep searchFn) ⟨[], [], 0⟩

/-- The minimum-relevance floor 0.15 of the merge step
(semantic_search_tool.py line 170), written with mkRat so that concrete
instances evaluate inside the kernel. -/
def relevanceFloor : ℚ := mkRat 15 100

theorem relevanceFloor_eq : relevanceFloor = 3/20 := by
  rw [relevanceFloor, Rat.mkRat_eq_div]; norm_num

/-- The merge step (semantic_search_tool.py lines 164-170): concatenate
all result tables, sort by similarity_score descending, filter to rows
with similarity_score >= 0.15. -/
def mergeHits (dfs : List (List SearchHit)) : List SearchHit :=
  ((dfs.flatten).mergeSort
      (fun a b => a.similarity_score ≥ b.similarity_score)).filter
    (fun h => h.similarity_score ≥ relevanceFloor)

/-- Outcome of the merging phase of multi_query_search. -/
inductive MergeOutcome where
  | noResults
  | belowThreshold
  | results (hits : List SearchHit)
  deriving Repr, DecidableEq

/-- The merging phase (semantic_search_tool.py lines 159-175): if no query
produced hits the no-results message is returned; if the threshold filter
empties the merged table the distinct below-threshold message is returned;
otherwise the surviving hits. -/
def mergePhase (all_dfs : List (List SearchHit)) : MergeOutcome :=
  if all_dfs.isEmpty then .noResults
  else if (mergeHits all_dfs).isEmpty then .belowThreshold
  else .results (mergeHits all_dfs)

/-- Outcome of a whole retrieval session up to merging. -/
def sessionOutcome (searchFn : String → List String → Except String (List SearchHit))
    (queries : List String) : MergeOutcome :=
  mergePhase (runSearchPhase searchFn queries).all_dfs

/-- The index honors the uid exclusion filter: no hit returned for a query
carries a uid from the exclusion list. -/
def honorsExclusion
    (searchFn : String → List String → Except String (List SearchHit)) : Prop :=
  ∀ q ex hits h, searchFn q ex = .ok hits → h ∈ hits → h.uid ∉ ex

/-- Two hit tables share no uid. -/
def uidDisjoint (df1 df2 : List SearchHit) : Prop :=
  ∀ h1 ∈ df1, ∀ h2 ∈ df2, h1.uid ≠ h2.uid

/-- Invariant of the searching loop: seen_uids is exactly the
concatenation of the uid columns of the accumulated tables, in order. -/
def seenMatches (st : SearchState) : Prop :=
  st.seen_uids = (st.all_dfs.map (fun df => df.map SearchHit.uid)).flatten

theorem searchStep_inv
    (searchFn : String → List String → Except String (List SearchHit))
    (hex : honorsExclusion searchFn) (st : SearchState) (query : String)
    (h1 : seenMatches st) (h2 : st.all_dfs.Pairwise uidDisjoint) :
    seenMatches (searchStep searchFn st query) ∧
      (searchStep searchFn st query).all_dfs.Pairwise uidDisjoint := by
  unfold seenMatches at h1 ⊢
  unfold searchStep
  split
  · exact ⟨h1, h2⟩
  · split
    next e hcall => exact ⟨h1, h2⟩
    next results hcall =>
      by_cases hres : results.isEmpty
      · simp [hres, h1, h2]
      · rw [if_neg hres]
        constructor
        · show st.seen_uids ++ results.map SearchHit.uid =
            ((st.all_dfs ++ [results]).map
              (fun df => df.map SearchHit.uid)).flatten
          simp [h1]
        · show (st.all_dfs ++ [results]).Pairwise uidDisjoint
          rw [List.pairwise_append]
          refine ⟨h2, by simp, ?_⟩
          intro df hdf r hr
          simp only [List.mem_singleton] at hr
          subst hr
          intro h1' hh1 h2' hh2 heq
          have hnot : h2'.uid ∉ st.seen_uids := hex _ _ _ _ hcall hh2
          apply hnot
          rw [h1]
          rw [List.mem_flatten]
          exact ⟨df.map SearchHit.uid, List.mem_map_of_mem _ hdf,
            heq ▸ List.mem_map_of_mem _ hh1⟩

theorem searchStep_nodup
    (searchFn : String → List String → Except String (List SearchHit))
    (hex : honorsExclusion searchFn)
    (hnd : ∀ q ex hits, searchFn q ex = .ok hits →
      (hits.map SearchHit.uid).Nodup)
    (st : SearchState) (query : String)
    (h3 : st.seen_uids.Nodup) :
    (searchStep searchFn st query).seen_uids.Nodup := by
  unfold searchStep
  split
  · exact h3
  · split
    next e hcall => exact h3
    next results hcall =>
      by_cases hres : results.isEmpty
      · simp [hres, h3]
      · rw [if_neg hres]
        show (st.seen_uids ++ results.map SearchHit.uid).Nodup
        refine List.Nodup.append h3 (hnd _ _ _ hcall) ?_
        intro u hu hu2
        simp only [List.mem_map] at hu2
        obtain ⟨h', hh', rfl⟩ := hu2
        exact hex _ _ _ _ hcall hh' hu

theorem runSearchPhase_inv
    (searchFn : String → List String → Except String (List SearchHit))
    (hex : honorsExclusion searchFn) (queries : List String) :
    seenMatches (runSearchPhase searchFn queries) ∧
      (runSearchPhase searchFn queries).all_dfs.Pairwise uidDisjoint := by
  unfold runSearchPhase
  have main : ∀ (qs : List String) (st : SearchState),
      seenMatches st → st.all_dfs.Pairwise uidDisjoint →
      seenMatches (qs.foldl (searchStep searchFn) st) ∧
        (qs.foldl (searchStep searchFn) st).all_dfs.Pairwise uidDisjoint := by
    intro qs
    induction qs with
    | nil => intro st h1 h2; exact ⟨h1, h2⟩
    | cons q rest ih =>
      intro st h1 h2
      obtain ⟨g1, g2⟩ := searchStep_inv searchFn hex st q h1 h2
      exact ih _ g1 g2
  exact main queries ⟨[], [], 0⟩ (by simp [seenMatches]) (by simp)

theorem runSearchPhase_nodup
    (searchFn : String → List String → Except String (List SearchHit))
    (hex : honorsExclusion searchFn)
    (hnd : ∀ q ex hits, searchFn q ex = .ok hits →
      (hits.map SearchHit.uid).Nodup)
    (queries : List String) :
    (runSearchPhase searchFn queries).seen_uids.Nodup := by
  unfold runSearchPhase
  have main : ∀ (qs : List String) (st : SearchState),
      st.seen_uids.Nodup → (qs.foldl (searchStep searchFn) st).seen_uids.Nodup := by
    intro qs
    induction qs with
    | nil => intro st h3; exact h3
    | cons q rest ih =>
      intro st h3
      exact ih _ (searchStep_nodup searchFn hex hnd st q h3)
  exact main queries ⟨[], [], 0⟩ (by simp)

/-- C1: cross-query novelty invariant of multi_query_search.  The loop
starts from an empty seen_uids list, passes the accumulated list to each
search, and appends the uids of each non-empty result table (this is the
definition of runSearchPhase).  Assuming the index honors the exclusion
filter, any two accumulated tables are uid-disjoint (the i<j part of the
claim); assuming additionally that no single query returns a duplicated
uid within its own hit list, the concatenation of all returned uids —
which is exactly the final seen_uids list — contains no duplicate. -/
theorem C1_theorem
    (searchFn : String → List String → Except String (List SearchHit))
    (queries : List String)
    (hex : honorsExclusion searchFn)
    (hnd : ∀ q ex hits, searchFn q ex = .ok hits →
      (hits.map SearchHit.uid).Nodup) :
    (runSearchPhase searchFn queries).all_dfs.Pairwise uidDisjoint ∧
    (runSearchPhase searchFn queries).seen_uids =
      ((runSearchPhase searchFn queries).all_dfs.map
        (fun df => df.map SearchHit.uid)).flatten ∧
    (runSearchPhase searchFn queries).seen_uids.Nodup := by
  obtain ⟨g1, g2⟩ := runSearchPhase_inv searchFn hex queries
  exact ⟨g2, g1, runSearchPhase_nodup searchFn hex hnd queries⟩

/-- A search function backed by a fixed hit table that filters out every
excluded uid; it honors the exclusion filter by construction. -/
def filteredSearchFn (base : List SearchHit) (q : String) (ex : List String) :
    Except String (List SearchHit) :=
  .ok (base.filter (fun h => !(ex.contains h.uid)))

theorem filteredSearchFn_honors (base : List SearchHit) :
    honorsExclusion (filteredSearchFn base) := by
  intro _q ex hits h hcall hmem hin
  unfold filteredSearchFn at hcall
  cases hcall
  simp only [List.mem_filter, Bool.not_eq_eq_eq_not, Bool.not_true] at hmem
  have : ex.contains h.uid = true := List.elem_iff.mpr hin
  rw [this] at hmem
  exact Bool.true_eq_false.mp hmem.2

theorem filteredSearchFn_nodup (base : List SearchHit)
    (hb : (base.map SearchHit.uid).Nodup) :
    ∀ q ex hits, filteredSearchFn base q ex = .ok hits →
      (hits.map SearchHit.uid).Nodup := by
  intro q ex hits hcall
  unfold filteredSearchFn at hcall
  cases hcall
  exact hb.sublist (List.Sublist.map _ (List.filter_sublist _))

/-- A hit whose uid is the single letter a, used for the C1
counterexample. -/
def dupHit : SearchHit :=
  { uid := "a", similarity_score := mkRat 1 2, text_answer := "t", question := "q",
    event_name := "", event_code := "", question_type := "", nps_group := "",
    response_id := "", csv_source := "" }

/-- C1 counterexample: an index that honors the exclusion filter but
returns the same uid twice inside one single query answer.  The loop then
records the uid twice, so the union of all returned uids contains a
duplicate even though the exclusion filter was honored: the claim needs
the extra per-query no-duplicate assumption. -/
theorem C1_counterexample :
    honorsExclusion (filteredSearchFn [dupHit, dupHit]) ∧
    (runSearchPhase (filteredSearchFn [dupHit, dupHit]) ["q"]).seen_uids =
      ["a", "a"] ∧
    ¬ (runSearchPhase (filteredSearchFn [dupHit, dupHit]) ["q"]).seen_uids.Nodup :=
  ⟨filteredSearchFn_honors _, by decide, by decide⟩

/-- A hit with uid b and a distinct text, used in witnesses. -/
def otherHit : SearchHit :=
  { uid := "b", similarity_score := mkRat 1 4, text_answer := "u", question := "q",
    event_name := "", event_code := "", question_type := "", nps_group := "",
    response_id := "", csv_source := "" }

/-- C1 witness: the theorem applied to a concrete exclusion-honoring
index over two hits with distinct uids and two queries. -/
theorem C1_witness :
    (runSearchPhase (filteredSearchFn [dupHit, otherHit]) ["q1", "q2"]).seen_uids.Nodup :=
  (C1_theorem (filteredSearchFn [dupHit, otherHit]) ["q1", "q2"]
    (filteredSearchFn_honors _)
    (filteredSearchFn_nodup _ (by decide))).2.2

/-- C2: threshold law of the merge step.  Membership in the merged table
is membership in the concatenation with similarity_score >= 0.15; the
bound is inclusive, so a hit scoring exactly 3/20 = 0.15 is retained and
one scoring 1499/10000 = 0.1499 is excluded; the output is sorted by
similarity_score in descending order. -/
theorem C2_theorem (dfs : List (List SearchHit)) :
    (∀ h ∈ mergeHits dfs, relevanceFloor ≤ h.similarity_score) ∧
    (∀ h ∈ dfs.flatten, relevanceFloor ≤ h.similarity_score → h ∈ mergeHits dfs) ∧
    (∀ h ∈ dfs.flatten, h.similarity_score < relevanceFloor → h ∉ mergeHits dfs) ∧
    (mergeHits dfs).Pairwise
      (fun a b => b.similarity_score ≤ a.similarity_score) := by
  have hmem : ∀ h, h ∈ mergeHits dfs ↔
      h ∈ dfs.flatten ∧ relevanceFloor ≤ h.similarity_score := by
    intro h
    unfold mergeHits
    rw [List.mem_filter, List.mem_mergeSort]
    simp [ge_iff_le]
  refine ⟨?_, ?_, ?_, ?_⟩
  · intro h hh; exact ((hmem h).mp hh).2
  · intro h hh hs; exact (hmem h).mpr ⟨hh, hs⟩
  · intro h hh hs hcontra
    exact absurd ((hmem h).mp hcontra).2 (not_le.mpr hs)
  · unfold mergeHits
    refine List.Pairwise.sublist (List.filter_sublist _) ?_
    have hsorted := @List.sorted_mergeSort SearchHit
      (fun a b => decide (a.similarity_score ≥ b.similarity_score))
      (fun a b c hab hbc =>
        decide_eq_true (le_trans (of_decide_eq_true hbc) (of_decide_eq_true hab)))
      (fun a b => by
        rcases le_total a.similarity_score b.similarity_score with h | h <;>
          simp [h])
      dfs.flatten
    exact hsorted.imp (fun hab => of_decide_eq_true hab)

/-- A hit with a given similarity score and empty metadata, used in the
boundary witness for the threshold law. -/
def hitAt (s : ℚ) : SearchHit :=
  { uid := "w", similarity_score := s, text_answer := "", question := "",
    event_name := "", event_code := "", question_type := "", nps_group := "",
    response_id := "", csv_source := "" }

/-- C2 witness: the boundary behaviour at exactly 0.15 (retained) and at
0.1499 (excluded), obtained from the theorem at a concrete table. -/
theorem C2_witness :
    hitAt (mkRat 15 100) ∈ mergeHits [[hitAt (mkRat 15 100), hitAt (mkRat 1499 10000)]] ∧
    hitAt (mkRat 1499 10000) ∉ mergeHits [[hitAt (mkRat 15 100), hitAt (mkRat 1499 10000)]] :=
  ⟨(C2_theorem [[hitAt (mkRat 15 100), hitAt (mkRat 1499 10000)]]).2.1 _ (by decide) (by decide),
    (C2_theorem [[hitAt (mkRat 15 100), hitAt (mkRat 1499 10000)]]).2.2.1 _ (by decide) (by decide)⟩

/-- C8: a failure of the index query call inside EmbeddingStore.search
does not propagate: the method returns an empty result set. -/
theorem C8_theorem (e : String) : searchFromIndex (.error e) = [] := rfl

/-- C8 witness: the theorem at a concrete error message. -/
theorem C8_witness : searchFromIndex (.error "boom") = [] :=
  C8_theorem "boom"

/-- C9: distinct session-fatal outcomes of multi_query_search.  If no
query produces hits the session ends in the no-results outcome; if the
accumulated tables are non-empty but every accumulated hit scores below
the 0.15 floor, the session ends in the distinct below-threshold outcome
and never in the no-results outcome. -/
theorem C9_theorem
    (searchFn : String → List String → Except String (List SearchHit))
    (queries : List String) :
    ((∀ q ex hits, searchFn q ex = .ok hits → hits = []) →
      sessionOutcome searchFn queries = .noResults) ∧
    ((runSearchPhase searchFn queries).all_dfs ≠ [] →
      (∀ df ∈ (runSearchPhase searchFn queries).all_dfs, ∀ h ∈ df,
        h.similarity_score < relevanceFloor) →
      sessionOutcome searchFn queries = .belowThreshold ∧
      sessionOutcome searchFn queries ≠ .noResults) := by
  constructor
  · intro hempty
    have hstep : ∀ st q, searchStep searchFn st q = st := by
      intro st q
      unfold searchStep
      split
      · rfl
      · split
        next e hcall => rfl
        next results hcall =>
          have hr : results = [] := hempty _ _ _ hcall
          subst hr
          simp
    have hfold : ∀ (qs : List String) (st : SearchState),
        qs.foldl (searchStep searchFn) st = st := by
      intro qs
      induction qs with
      | nil => intro st; rfl
      | cons q rest ih => intro st; rw [List.foldl_cons, hstep]; exact ih st
    unfold sessionOutcome runSearchPhase
    rw [hfold]
    rfl
  · intro hne hbelow
    have hempty : mergeHits (runSearchPhase searchFn queries).all_dfs = [] := by
      unfold mergeHits
      rw [List.filter_eq_nil_iff]
      intro a ha
      rw [List.mem_mergeSort, List.mem_flatten] at ha
      obtain ⟨df, hdf, hadf⟩ := ha
      have hlt := hbelow df hdf a hadf
      simp [not_le.mpr hlt]
    have hout : sessionOutcome searchFn queries = .belowThreshold := by
      unfold sessionOutcome mergePhase
      rw [if_neg (by simpa [List.isEmpty_iff] using hne), hempty]
      rfl
    refine ⟨hout, ?_⟩
    rw [hout]
    intro hcontra
    exact MergeOutcome.noConfusion hcontra

/-- A hit whose similarity score 1/10 lies below the relevance floor,
used in the C9 witness. -/
def lowHit : SearchHit :=
  { uid := "c", similarity_score := mkRat 1 10, text_answer := "low", question := "",
    event_name := "", event_code := "", question_type := "", nps_group := "",
    response_id := "", csv_source := "" }

/-- C9 witness: with an index returning a single below-floor hit, the
session ends in the below-threshold outcome and not the no-results one. -/
theorem C9_witness :
    sessionOutcome (filteredSearchFn [lowHit]) ["q"] = .belowThreshold ∧
    sessionOutcome (filteredSearchFn [lowHit]) ["q"] ≠ .noResults :=
  (C9_theorem (filteredSearchFn [lowHit]) ["q"]).2 (by decide) (by decide)

/-! ### The embedding retry loop
(EmbeddingStore._generate_embedding_with_retry, embeddings_service.py
lines 59-119)

One attempt of the bedrock invoke_model call either succeeds with an
embedding, raises a botocore ClientError carrying an error code, or raises
some other exception. -/

/-- Outcome of one invoke_model attempt. -/
inductive AttemptOutcome where
  | success (embedding : List ℚ)
  | clientError (code : String)
  | otherError (message : String)
  deriving Repr, DecidableEq

/-- The retry loop of _generate_embedding_with_retry, compiled from the
python `for attempt in range(retries)` with `remaining = retries - attempt`
so that the recursion is structural: remaining = 0 means the range is
exhausted and the final `return None, False` fires.  A ThrottlingException
sleeps 2^attempt seconds and retries; a ValidationException returns
(none, false) at once; any other ClientError sleeps and retries unless
this was the last attempt (`attempt < retries - 1` is `0 < remaining`);
any non-client exception returns (none, false) at once.  The result pairs
the (vector-option, succeeded) value with the list of backoff sleeps
performed. -/
def embedRetryLoop (outcomes : Nat → AttemptOutcome) :
    Nat → Nat → List Nat → (Option (List ℚ) × Bool) × List Nat
  | 0, _, sleeps => ((none, false), sleeps)
  | remaining + 1, attempt, sleeps =>
    match outcomes attempt with
    | .success emb => ((some emb, true), sleeps)
    | .clientError code =>
      if code = "ThrottlingException" then
        embedRetryLoop outcomes remaining (attempt + 1) (sleeps ++ [2 ^ attempt])
      else if code = "ValidationException" then ((none, false), sleeps)
      else if 0 < remaining then
        embedRetryLoop outcomes remaining (attempt + 1) (sleeps ++ [2 ^ attempt])
      else ((none, false), sleeps)
    | .otherError _ => ((none, false), sleeps)

/-- _generate_embedding_with_retry: empty text short-circuits to a zero
vector of the configured dimension and success, without touching the
model; otherwise the retry loop runs with attempt starting at 0 and no
sleeps yet. -/
def generateEmbeddingWithRetry (retries dim : Nat) (text : String)
    (outcomes : Nat → AttemptOutcome) : (Option (List ℚ) × Bool) × List Nat :=
  if text = "" then ((some (List.replicate dim 0), true), [])
  else embedRetryLoop outcomes retries 0 []

/-- The result of the retry loop is always a definite failure
(none, false) or a success (some vector, true): no exception escapes. -/
theorem embedRetryLoop_shape (outcomes : Nat → AttemptOutcome) :
    ∀ (remaining attempt : Nat) (sleeps : List Nat),
      (embedRetryLoop outcomes remaining attempt sleeps).1 = (none, false) ∨
      ∃ e, (embedRetryLoop outcomes remaining attempt sleeps).1 = (some e, true) := by
  intro remaining
  induction remaining with
  | zero => intro attempt sleeps; left; rfl
  | succ n ih =>
    intro attempt sleeps
    unfold embedRetryLoop
    split
    · right; exact ⟨_, rfl⟩
    · next code hcall =>
        by_cases h1 : code = "ThrottlingException"
        · rw [if_pos h1]; exact ih (attempt + 1) (sleeps ++ [2 ^ attempt])
        · rw [if_neg h1]
          by_cases h2 : code = "ValidationException"
          · rw [if_pos h2]; left; rfl
          · rw [if_neg h2]
            by_cases h3 : 0 < n
            · rw [if_pos h3]; exact ih (attempt + 1) (sleeps ++ [2 ^ attempt])
            · rw [if_neg h3]; left; rfl
    · left; rfl

/-- The backoff sleeps of the retry loop: starting from the sleeps of the
first `attempt` attempts, the final sleep list is 2^0, 2^1, ..., 2^(k-1)
for some k at most retries. -/
theorem embedRetryLoop_sleeps (outcomes : Nat → AttemptOutcome) :
    ∀ (remaining attempt : Nat),
      ∃ k, k ≤ attempt + remaining ∧
        (embedRetryLoop outcomes remaining attempt
            ((List.range attempt).map (fun i => 2 ^ i))).2 =
          (List.range k).map (fun i => 2 ^ i) := by
  intro remaining
  induction remaining with
  | zero => intro attempt; exact ⟨attempt, by omega, rfl⟩
  | succ n ih =>
    intro attempt
    have hgrow : (List.range attempt).map (fun i => 2 ^ i) ++ [2 ^ attempt] =
        (List.range (attempt + 1)).map (fun i => 2 ^ i) := by
      rw [List.range_succ, List.map_append]
      rfl
    unfold embedRetryLoop
    split
    · exact ⟨attempt, by omega, rfl⟩
    · next code hcall =>
        by_cases h1 : code = "ThrottlingException"
        · rw [if_pos h1, hgrow]
          obtain ⟨k, hk, hval⟩ := ih (attempt + 1)
          exact ⟨k, by omega, hval⟩
        · rw [if_neg h1]
          by_cases h2 : code = "ValidationException"
          · rw [if_pos h2]; exact ⟨attempt, by omega, rfl⟩
          · rw [if_neg h2]
            by_cases h3 : 0 < n
            · rw [if_pos h3, hgrow]
              obtain ⟨k, hk, hval⟩ := ih (attempt + 1)
              exact ⟨k, by omega, hval⟩
            · rw [if_neg h3]; exact ⟨attempt, by omega, rfl⟩
    · exact ⟨attempt, by omega, rfl⟩

/-- C3: retry policy of _generate_embedding_with_retry for non-empty
text.  All-throttling runs end in (none, false) after the default 5
attempts with backoff sleeps exactly 1, 2, 4, 8, 16 seconds; a validation
failure on the first attempt returns (none, false) at once with no sleep;
a first-attempt success returns the vector with true and no sleep; every
run ends in (none, false) or (some vector, true) — never an exception —
and the sleeps performed are always the exponential-backoff sequence 2^0
.. 2^(k-1) for some k at most the 5 configured attempts. -/
theorem C3_theorem (dim : Nat) (text : String) (ht : text ≠ "")
    (outcomes : Nat → AttemptOutcome) (emb : List ℚ) :
    generateEmbeddingWithRetry 5 dim text
        (fun _ => .clientError "ThrottlingException") =
      ((none, false), [1, 2, 4, 8, 16]) ∧
    (outcomes 0 = .clientError "ValidationException" →
      generateEmbeddingWithRetry 5 dim text outcomes = ((none, false), [])) ∧
    (outcomes 0 = .success emb →
      generateEmbeddingWithRetry 5 dim text outcomes = ((some emb, true), [])) ∧
    ((generateEmbeddingWithRetry 5 dim text outcomes).1 = (none, false) ∨
      ∃ e, (generateEmbeddingWithRetry 5 dim text outcomes).1 = (some e, true)) ∧
    (∃ k, k ≤ 5 ∧ (generateEmbeddingWithRetry 5 dim text outcomes).2 =
      (List.range k).map (fun i => 2 ^ i)) := by
  have hopen : ∀ (oc : Nat → AttemptOutcome),
      generateEmbeddingWithRetry 5 dim text oc = embedRetryLoop oc 5 0 [] := by
    intro oc
    unfold generateEmbeddingWithRetry
    rw [if_neg ht]
  refine ⟨?_, ?_, ?_, ?_, ?_⟩
  · rw [hopen]; rfl
  · intro hv
    rw [hopen]
    unfold embedRetryLoop
    rw [hv]
    rfl
  · intro hs
    rw [hopen]
    unfold embedRetryLoop
    rw [hs]
  · rw [hopen]
    exact embedRetryLoop_shape outcomes 5 0 []
  · rw [hopen]
    have hbase : ((List.range 0).map (fun i => 2 ^ i) : List Nat) = [] := rfl
    obtain ⟨k, hk, hval⟩ := embedRetryLoop_sleeps outcomes 5 0
    rw [hbase] at hval
    exact ⟨k, by omega, hval⟩

/-- C3 witness: the all-throttling scenario at a concrete non-empty text,
taken from the theorem. -/
theorem C3_witness :
    generateEmbeddingWithRetry 5 4 "hi"
        (fun _ => AttemptOutcome.clientError "ThrottlingException") =
      ((none, false), [1, 2, 4, 8, 16]) :=
  (C3_theorem 4 "hi" (by decide)
    (fun _ => AttemptOutcome.clientError "ThrottlingException") []).1

/-! ### The ingestion pipeline
(EmbeddingStore.add_dataframe, _check_existing_vectors, _upload_vectors,
delete_all_vectors; embeddings_service.py lines 121-310) -/

/-- One survey row, with the source CSV column names.  TEXT_ANSWER is an
Option to model a NaN cell. -/
structure SurveyRow where
  TEXT_ANSWER : Option String
  QUESTION : String
  EVENTNAME : String
  EVENTCODE : String
  QUESTION_TYPE : String
  NPS_GROUP : String
  RESPONSEID : String
  deriving Repr, DecidableEq

/-- A vector record sent to put_vectors: key, embedding data and the
metadata dict of add_dataframe (embeddings_service.py lines 268-285). -/
structure VectorRecord where
  key : String
  embedding : List ℚ
  uid : String
  text_answer : String
  question : String
  event_name : String
  event_code : String
  question_type : String
  nps_group : String
  response_id : String
  csv_source : String
  deriving Repr, DecidableEq

/-- The metadata-building step of add_dataframe for one row
(embeddings_service.py lines 265-285): fields are string-truncated to
their byte budgets (text_answer 1500, question 300, event_name 100). -/
def mkVectorRecord (uid key csvName : String) (r : SurveyRow)
    (emb : List ℚ) : VectorRecord :=
  { key := key
    embedding := emb
    uid := uid
    text_answer := (r.TEXT_ANSWER.getD "").take 1500
    question := r.QUESTION.take 300
    event_name := r.EVENTNAME.take 100
    event_code := r.EVENTCODE
    question_type := r.QUESTION_TYPE
    nps_group := r.NPS_GROUP
    response_id := r.RESPONSEID
    csv_source := csvName }

/-- The state of the external vector index: the stored records.  put is
idempotent by key: an upsert replaces any stored record with a colliding
key. -/
def indexUpsert (state records : List VectorRecord) : List VectorRecord :=
  state.filter (fun v => records.all (fun r => r.key ≠ v.key)) ++ records

/-- Whether a key is present in the index state. -/
def indexHasKey (state : List VectorRecord) (k : String) : Bool :=
  state.any (fun v => v.key = k)

/-- _check_existing_vectors (embeddings_service.py lines 121-145),
assuming the batched get calls succeed: the returned set is exactly the
queried keys present in the index, here as the sublist of queried keys
that exist. -/
def checkExistingVectors (state : List VectorRecord) (keys : List String) :
    List String :=
  keys.filter (indexHasKey state)

/-- The list of put_vectors calls _upload_vectors issues
(embeddings_service.py lines 147-162): none for an empty vector list,
otherwise exactly one call carrying the whole list — the upload is not
re-batched. -/
def uploadVectorsCalls (vectors : List VectorRecord) :
    List (List VectorRecord) :=
  if vectors.isEmpty then [] else [vectors]

/-- _upload_vectors with an explicit put outcome: an empty list returns 0
without calling put; otherwise the single put call either succeeds,
returning the vector count, or fails, and the failure is re-raised to the
caller. -/
def uploadVectors (putCall : List VectorRecord → Except String Unit)
    (vectors : List VectorRecord) : Except String Nat :=
  if vectors.isEmpty then .ok 0
  else
    match putCall vectors with
    | .ok _ => .ok vectors.length
    | .error e => .error e

/-- The row filter of add_dataframe (embeddings_service.py lines
211-216): keep rows with a present, non-empty TEXT_ANSWER, and when the
QUESTION_TYPE column is present keep only rows of question type Text. -/
def filterTextRows (hasTypeCol : Bool) (df : List SurveyRow) :
    List SurveyRow :=
  let t1 := df.filter (fun r =>
    match r.TEXT_ANSWER with
    | some t => t ≠ ""
    | none => false)
  if hasTypeCol then t1.filter (fun r => r.QUESTION_TYPE = "Text") else t1

/-- Key assignment of add_dataframe (embeddings_service.py lines
230-237): the i-th surviving row gets key csvName_(rowOffset + i). -/
def assignKeys (csvName : String) : Nat → List SurveyRow →
    List (SurveyRow × String)
  | _, [] => []
  | n, r :: rs => (r, s!"{csvName}_{n}") :: assignKeys csvName (n + 1) rs

/-- The per-row embedding loop of add_dataframe (embeddings_service.py
lines 258-288): each new row is embedded (the deterministic model of
_generate_embedding_with_retry is a function to an Option); a success
appends a vector record built with the next generated uid, a failure only
counts.  Returns (pending vectors, keys embedded, failed count); uidIdx
indexes the uid generator by the number of successes so far. -/
def processNewRows (embed : String → Option (List ℚ)) (uids : Nat → String)
    (csvName : String) : List (SurveyRow × String) → Nat →
    List VectorRecord × List String × Nat
  | [], _ => ([], [], 0)
  | (r, key) :: rest, uidIdx =>
    match embed (r.TEXT_ANSWER.getD "") with
    | some emb =>
      let rec1 := mkVectorRecord (uids uidIdx) key csvName r emb
      let tail := processNewRows embed uids csvName rest (uidIdx + 1)
      (rec1 :: tail.1, key :: tail.2.1, tail.2.2)
    | none =>
      let tail := processNewRows embed uids csvName rest uidIdx
      (tail.1, key :: tail.2.1, tail.2.2 + 1)

/-- Result of one add_dataframe run: the index state afterwards and the
keys for which an embedding call was made. -/
structure IngestResult where
  state : List VectorRecord
  embeddedKeys : List String
  deriving Repr, DecidableEq

/-- The keyed surviving rows of one add_dataframe call: filter, cap to
maxRows head-first, and pair each row with its key
csvName_(rowOffset + i). -/
def ingestKeyed (df : List SurveyRow) (csvName : String)
    (maxRows rowOffset : Nat) (hasTypeCol : Bool) :
    List (SurveyRow × String) :=
  assignKeys csvName rowOffset ((filterTextRows hasTypeCol df).take maxRows)

/-- The rows add_dataframe actually embeds: the keyed rows whose key the
existence check does not report as already stored
(embeddings_service.py lines 235-241). -/
def ingestNewRows (state : List VectorRecord) (df : List SurveyRow)
    (csvName : String) (maxRows rowOffset : Nat) (hasTypeCol : Bool) :
    List (SurveyRow × String) :=
  (ingestKeyed df csvName maxRows rowOffset hasTypeCol).filter
    (fun p => !((checkExistingVectors state
      ((ingestKeyed df csvName maxRows rowOffset hasTypeCol).map
        (fun q => q.2))).contains p.2))

/-- EmbeddingStore.add_dataframe (embeddings_service.py lines 200-310):
filter rows, cap to maxRows head-first, assign keys
csvName_(rowOffset + i), skip rows whose key already exists in the index,
embed the remaining rows, and upsert the successfully embedded records
(an empty pending list leaves the index untouched, matching the empty
short-circuit of _upload_vectors). -/
def addDataframe (embed : String → Option (List ℚ)) (uids : Nat → String)
    (state : List VectorRecord) (df : List SurveyRow) (csvName : String)
    (maxRows rowOffset : Nat) (hasTypeCol : Bool) : IngestResult :=
  if ((filterTextRows hasTypeCol df).take maxRows).isEmpty then ⟨state, []⟩
  else if (ingestNewRows state df csvName maxRows rowOffset hasTypeCol).isEmpty
    then ⟨state, []⟩
  else
    ⟨indexUpsert state
        (processNewRows embed uids csvName
          (ingestNewRows state df csvName maxRows rowOffset hasTypeCol) 0).1,
      (processNewRows embed uids csvName
        (ingestNewRows state df csvName maxRows rowOffset hasTypeCol) 0).2.1⟩

/-- A sample vector record for concrete instances. -/
def sampleRecord : VectorRecord :=
  { key := "f_0", embedding := [1], uid := "u", text_answer := "t",
    question := "", event_name := "", event_code := "", question_type := "",
    nps_group := "", response_id := "", csv_source := "f" }

/-- C4 counterexample: 501 records exceed the 500-item put ceiling of the
index, yet _upload_vectors issues exactly one put call carrying all of
them — the upload is not partitioned, so an input larger than the ceiling
does not result in more than one index call. -/
theorem C4_counterexample :
    (uploadVectorsCalls (List.replicate 501 sampleRecord)).length = 1 ∧
    ¬ 1 < (uploadVectorsCalls (List.replicate 501 sampleRecord)).length := by
  have h : (uploadVectorsCalls (List.replicate 501 sampleRecord)).length = 1 := rfl
  exact ⟨h, by rw [h]; omega⟩

/-- C4 amended: _upload_vectors sends every non-empty record list to the
index in a single put call carrying the whole list, with no re-batching;
a failure of that call propagates as an error to the ingestion caller and
a success returns the record count. -/
theorem C4_theorem (putCall : List VectorRecord → Except String Unit)
    (vectors : List VectorRecord) (hne : vectors ≠ []) :
    uploadVectorsCalls vectors = [vectors] ∧
    (∀ e, putCall vectors = .error e →
      uploadVectors putCall vectors = .error e) ∧
    (putCall vectors = .ok () →
      uploadVectors putCall vectors = .ok vectors.length) := by
  have hemp : vectors.isEmpty = false := by
    simpa [List.isEmpty_iff] using hne
  refine ⟨?_, ?_, ?_⟩
  · unfold uploadVectorsCalls
    simp [hemp]
  · intro e he
    unfold uploadVectors
    simp [hemp, he]
  · intro hk
    unfold uploadVectors
    simp [hemp, hk]

/-- C4 witness: a one-record upload produces exactly one put call, and a
failing put propagates its error. -/
theorem C4_witness :
    uploadVectorsCalls [sampleRecord] = [[sampleRecord]] ∧
    uploadVectors (fun _ => .error "boom") [sampleRecord] = .error "boom" :=
  ⟨(C4_theorem (fun _ => .error "boom") [sampleRecord] (by decide)).1,
    (C4_theorem (fun _ => .error "boom") [sampleRecord] (by decide)).2.1
      "boom" rfl⟩

/-! ### Deletion (EmbeddingStore.delete_all_vectors, embeddings_service.py
lines 164-198) -/

/-- An error raised by a delete_vectors call; notFound models whether the
string NotFound occurs in the exception text. -/
structure DeleteErr where
  notFound : Bool
  deriving Repr, DecidableEq

/-- Batching of a list by the python `range(0, len, batchSize)` slicing;
the fuel argument bounds the recursion and any fuel at least the list
length is enough for a positive batch size. -/
def chunkListAux (batchSize : Nat) : Nat → List α → List (List α)
  | 0, _ => []
  | _, [] => []
  | fuel + 1, l => l.take batchSize :: chunkListAux batchSize fuel (l.drop batchSize)

/-- Partition a list into consecutive batches of at most batchSize. -/
def chunkList (batchSize : Nat) (l : List α) : List (List α) :=
  chunkListAux batchSize l.length l

/-- Outcome of the delete loop: keys deleted, batches attempted (calls
issued, the failing one included), warnings logged.  A warning is logged
only for an error whose text does not contain NotFound
(embeddings_service.py lines 192-194). -/
structure DeleteOutcome where
  totalDeleted : Nat
  batchesAttempted : Nat
  warningsLogged : Nat
  deriving Repr, DecidableEq

/-- The batch loop of delete_all_vectors (embeddings_service.py lines
178-195): each successful call adds its batch size to the total; ANY
error — NotFound or not — breaks out of the loop (the `break` sits after
the NotFound test, which only suppresses the warning), keeping the total
accumulated so far. -/
def deleteBatchLoop (deleteCall : List String → Except DeleteErr Unit) :
    List (List String) → DeleteOutcome
  | [] => ⟨0, 0, 0⟩
  | batch :: rest =>
    match deleteCall batch with
    | .ok _ =>
      let tail := deleteBatchLoop deleteCall rest
      ⟨batch.length + tail.totalDeleted, tail.batchesAttempted + 1,
        tail.warningsLogged⟩
    | .error e => ⟨0, 1, if e.notFound then 0 else 1⟩

/-- The candidate keys of delete_all_vectors: csvName_i for i below
maxCount (embeddings_service.py line 174). -/
def deleteKeys (csvName : String) (maxCount : Nat) : List String :=
  (List.range maxCount).map (fun i => s!"{csvName}_{i}")

/-- delete_all_vectors (embeddings_service.py lines 164-198): batch the
candidate keys by 500 (the DeleteVectors limit) and run the loop,
returning the full outcome; the python function returns totalDeleted. -/
def deleteAllVectors (deleteCall : List String → Except DeleteErr Unit)
    (csvName : String) (maxCount : Nat) : DeleteOutcome :=
  deleteBatchLoop deleteCall (chunkList 500 (deleteKeys csvName maxCount))

theorem chunkListAux_sum {α : Type} (batchSize : Nat) (hbs : 0 < batchSize) :
    ∀ (fuel : Nat) (l : List α), l.length ≤ fuel →
      ((chunkListAux batchSize fuel l).map List.length).sum = l.length := by
  intro fuel
  induction fuel with
  | zero =>
    intro l hl
    have hnil : l = [] := List.eq_nil_of_length_eq_zero (Nat.le_zero.mp hl)
    subst hnil
    rfl
  | succ n ih =>
    intro l hl
    cases l with
    | nil => rfl
    | cons x xs =>
      simp only [List.length_cons] at hl
      show (((x :: xs).take batchSize :: chunkListAux batchSize n
          ((x :: xs).drop batchSize)).map List.length).sum = (x :: xs).length
      rw [List.map_cons, List.sum_cons, List.length_take,
        ih ((x :: xs).drop batchSize)
          (by rw [List.length_drop, List.length_cons]; omega)]
      rw [List.length_drop]
      simp only [List.length_cons]
      omega

theorem deleteBatchLoop_ok (deleteCall : List String → Except DeleteErr Unit) :
    ∀ batches, (∀ b ∈ batches, deleteCall b = .ok ()) →
      deleteBatchLoop deleteCall batches =
        ⟨(batches.map List.length).sum, batches.length, 0⟩ := by
  intro batches
  induction batches with
  | nil => intro hok; rfl
  | cons b rest ih =>
    intro hok
    unfold deleteBatchLoop
    rw [hok b (by simp)]
    rw [ih (fun p hp => hok p (by simp [hp]))]
    simp

theorem deleteBatchLoop_break (deleteCall : List String → Except DeleteErr Unit)
    (b : List String) (post : List (List String)) (e : DeleteErr)
    (he : deleteCall b = .error e) :
    ∀ pre, (∀ p ∈ pre, deleteCall p = .ok ()) →
      deleteBatchLoop deleteCall (pre ++ b :: post) =
        ⟨(pre.map List.length).sum, pre.length + 1,
          if e.notFound then 0 else 1⟩ := by
  intro pre
  induction pre with
  | nil =>
    intro _hok
    show deleteBatchLoop deleteCall (b :: post) = _
    unfold deleteBatchLoop
    rw [he]
    rfl
  | cons p ps ih =>
    intro hok
    show deleteBatchLoop deleteCall (p :: (ps ++ b :: post)) = _
    unfold deleteBatchLoop
    rw [hok p (by simp)]
    rw [ih (fun x hx => hok x (by simp [hx]))]
    simp [Nat.add_comm]

set_option maxRecDepth 10000 in
/-- C7 counterexample: with 1000 candidate keys there are two batches of
500.  A delete call that fails with a NotFound error on the first batch
aborts the whole loop: only one batch is attempted and zero keys are
counted, although under the claim a not-found batch is not an error and
the second batch would still be issued.  The NotFound test only
suppresses the warning (warningsLogged = 0). -/
theorem C7_counterexample :
    (chunkList 500 (deleteKeys "f" 1000)).length = 2 ∧
    deleteAllVectors (fun _ => .error ⟨true⟩) "f" 1000 =
      ⟨0, 1, 0⟩ := by
  constructor
  · decide
  · decide

/-- C7 amended: delete partitions the candidate keys into batches of 500
and issues one delete call per batch in order; if every call succeeds all
batches are attempted and the returned count is the full key count; ANY
failing call — a not-found condition included, whose only special
treatment is that no warning is logged — aborts the remaining batches,
and the returned count is the number of keys in the batches that
succeeded before the failure. -/
theorem C7_theorem (deleteCall : List String → Except DeleteErr Unit)
    (batches : List (List String)) (pre : List (List String))
    (b : List String) (post : List (List String)) (e : DeleteErr)
    (csvName : String) (maxCount : Nat) :
    ((∀ x ∈ batches, deleteCall x = .ok ()) →
      deleteBatchLoop deleteCall batches =
        ⟨(batches.map List.length).sum, batches.length, 0⟩) ∧
    (batches = pre ++ b :: post → (∀ p ∈ pre, deleteCall p = .ok ()) →
      deleteCall b = .error e →
      deleteBatchLoop deleteCall batches =
        ⟨(pre.map List.length).sum, pre.length + 1,
          if e.notFound then 0 else 1⟩) ∧
    ((∀ x ∈ chunkList 500 (deleteKeys csvName maxCount),
        deleteCall x = .ok ()) →
      (deleteAllVectors deleteCall csvName maxCount).totalDeleted =
        maxCount) := by
  refine ⟨deleteBatchLoop_ok deleteCall batches, ?_, ?_⟩
  · intro hsplit hpre he
    subst hsplit
    exact deleteBatchLoop_break deleteCall b post e he pre hpre
  · intro hok
    unfold deleteAllVectors
    rw [deleteBatchLoop_ok deleteCall _ hok]
    show ((chunkList 500 (deleteKeys csvName maxCount)).map List.length).sum
      = maxCount
    unfold chunkList
    rw [chunkListAux_sum 500 (by omega) _ _ (le_refl _)]
    simp [deleteKeys]

/-- C7 witness: an always-succeeding delete call over 1000 keys deletes
all 1000. -/
theorem C7_witness :
    (deleteAllVectors (fun _ => .ok ()) "f" 1000).totalDeleted = 1000 :=
  (C7_theorem (fun _ => .ok ()) [] [] [] [] ⟨true⟩ "f" 1000).2.2
    (fun _ _ => rfl)

/-! ### Lemmas for idempotent ingestion (C5) -/

theorem processNewRows_keys (embed : String → Option (List ℚ))
    (uids : Nat → String) (csvName : String) :
    ∀ (rows : List (SurveyRow × String)) (uidIdx : Nat),
      (processNewRows embed uids csvName rows uidIdx).2.1 =
        rows.map (fun p => p.2) := by
  intro rows
  induction rows with
  | nil => intro n; rfl
  | cons p rest ih =>
    intro n
    obtain ⟨r, key⟩ := p
    unfold processNewRows
    split
    · next emb heq => simp [ih]
    · next heq => simp [ih]

theorem processNewRows_success_mem (embed : String → Option (List ℚ))
    (uids : Nat → String) (csvName : String) :
    ∀ (rows : List (SurveyRow × String)) (uidIdx : Nat) (r : SurveyRow)
      (key : String), (r, key) ∈ rows →
      embed (r.TEXT_ANSWER.getD "") ≠ none →
      key ∈ (processNewRows embed uids csvName rows uidIdx).1.map
        VectorRecord.key := by
  intro rows
  induction rows with
  | nil => intro n r key hmem _; cases hmem
  | cons p rest ih =>
    intro n r key hmem hemb
    obtain ⟨r0, key0⟩ := p
    rcases List.mem_cons.mp hmem with heq | htail
    · injection heq with hr0 hk0
      subst hr0
      subst hk0
      cases hv : embed (r.TEXT_ANSWER.getD "") with
      | none => exact absurd hv hemb
      | some emb =>
        unfold processNewRows
        rw [hv]
        simp [mkVectorRecord]
    · cases hv : embed (r0.TEXT_ANSWER.getD "") with
      | none =>
        unfold processNewRows
        rw [hv]
        exact ih n r key htail hemb
      | some emb =>
        unfold processNewRows
        rw [hv]
        simp only [List.map_cons, List.mem_cons]
        exact .inr (ih (n + 1) r key htail hemb)

theorem processNewRows_allfail (embed : String → Option (List ℚ))
    (uids : Nat → String) (csvName : String) :
    ∀ (rows : List (SurveyRow × String)) (uidIdx : Nat),
      (∀ p ∈ rows, embed (p.1.TEXT_ANSWER.getD "") = none) →
      (processNewRows embed uids csvName rows uidIdx).1 = [] := by
  intro rows
  induction rows with
  | nil => intro n _; rfl
  | cons p rest ih =>
    intro n hall
    obtain ⟨r, key⟩ := p
    have hp : embed (r.TEXT_ANSWER.getD "") = none := hall (r, key) (by simp)
    unfold processNewRows
    rw [hp]
    exact ih n (fun q hq => hall q (by simp [hq]))

theorem indexHasKey_upsert (st recs : List VectorRecord) (k : String) :
    indexHasKey (indexUpsert st recs) k = true ↔
      (indexHasKey st k = true ∨ ∃ r ∈ recs, r.key = k) := by
  unfold indexHasKey indexUpsert
  simp only [List.any_append, Bool.or_eq_true, List.any_eq_true,
    List.mem_filter, List.all_eq_true, decide_eq_true_eq]
  constructor
  · rintro (⟨v, ⟨hv, _⟩, hk⟩ | ⟨r, hr, hk⟩)
    · exact .inl ⟨v, hv, hk⟩
    · exact .inr ⟨r, hr, hk⟩
  · rintro (⟨v, hv, hk⟩ | ⟨r, hr, hk⟩)
    · by_cases hc : ∃ r ∈ recs, r.key = k
      · obtain ⟨r, hr, hk2⟩ := hc
        exact .inr ⟨r, hr, hk2⟩
      · push_neg at hc
        refine .inl ⟨v, ⟨hv, fun r hr => ?_⟩, hk⟩
        rw [hk]
        exact hc r hr
    · exact .inr ⟨r, hr, hk⟩

theorem indexUpsert_nil (st : List VectorRecord) : indexUpsert st [] = st := by
  unfold indexUpsert
  simp

/-- A row of the new-rows list carries a key the existence check did not
find in the index: the key is genuinely absent. -/
theorem ingestNewRows_not_present (state : List VectorRecord)
    (df : List SurveyRow) (csvName : String) (maxRows rowOffset : Nat)
    (hasTypeCol : Bool) (p : SurveyRow × String)
    (hp : p ∈ ingestNewRows state df csvName maxRows rowOffset hasTypeCol) :
    indexHasKey state p.2 = false := by
  unfold ingestNewRows at hp
  rw [List.mem_filter] at hp
  obtain ⟨hkeyed, hfilt⟩ := hp
  by_cases hk : indexHasKey state p.2 = true
  · exfalso
    have hmemkeys : p.2 ∈ (ingestKeyed df csvName maxRows rowOffset
        hasTypeCol).map (fun q => q.2) := List.mem_map_of_mem _ hkeyed
    have hmemex : p.2 ∈ checkExistingVectors state
        ((ingestKeyed df csvName maxRows rowOffset hasTypeCol).map
          (fun q => q.2)) := by
      unfold checkExistingVectors
      rw [List.mem_filter]
      exact ⟨hmemkeys, hk⟩
    rw [Bool.not_eq_eq_eq_not, Bool.not_true] at hfilt
    simp [List.contains] at hfilt
    exact hfilt hmemex
  · exact Bool.eq_false_iff.mpr (fun hcon => hk hcon)

/-- A keyed row whose key is absent from the index is kept in the
new-rows list. -/
theorem ingestNewRows_of_absent (state : List VectorRecord)
    (df : List SurveyRow) (csvName : String) (maxRows rowOffset : Nat)
    (hasTypeCol : Bool) (p : SurveyRow × String)
    (hkeyed : p ∈ ingestKeyed df csvName maxRows rowOffset hasTypeCol)
    (habs : indexHasKey state p.2 = false) :
    p ∈ ingestNewRows state df csvName maxRows rowOffset hasTypeCol := by
  unfold ingestNewRows
  rw [List.mem_filter]
  refine ⟨hkeyed, ?_⟩
  have hnotex : p.2 ∉ checkExistingVectors state
      ((ingestKeyed df csvName maxRows rowOffset hasTypeCol).map
        (fun q => q.2)) := by
    unfold checkExistingVectors
    rw [List.mem_filter]
    rintro ⟨-, hk⟩
    rw [habs] at hk
    exact Bool.false_ne_true hk
  have hcf : (checkExistingVectors state
      ((ingestKeyed df csvName maxRows rowOffset hasTypeCol).map
        (fun q => q.2))).contains p.2 = false := by
    simp [List.contains]
    exact hnotex
  rw [hcf]
  rfl

theorem addDataframe_empty (embed : String → Option (List ℚ))
    (uids : Nat → String) (state : List VectorRecord) (df : List SurveyRow)
    (csvName : String) (maxRows rowOffset : Nat) (hasTypeCol : Bool)
    (h0 : ((filterTextRows hasTypeCol df).take maxRows).isEmpty = true) :
    addDataframe embed uids state df csvName maxRows rowOffset hasTypeCol =
      ⟨state, []⟩ := by
  unfold addDataframe
  rw [if_pos h0]

theorem addDataframe_nonew (embed : String → Option (List ℚ))
    (uids : Nat → String) (state : List VectorRecord) (df : List SurveyRow)
    (csvName : String) (maxRows rowOffset : Nat) (hasTypeCol : Bool)
    (h1 : (ingestNewRows state df csvName maxRows rowOffset
      hasTypeCol).isEmpty = true) :
    addDataframe embed uids state df csvName maxRows rowOffset hasTypeCol =
      ⟨state, []⟩ := by
  unfold addDataframe
  by_cases h0 : ((filterTextRows hasTypeCol df).take maxRows).isEmpty = true
  · rw [if_pos h0]
  · rw [if_neg h0, if_pos h1]

theorem addDataframe_main (embed : String → Option (List ℚ))
    (uids : Nat → String) (state : List VectorRecord) (df : List SurveyRow)
    (csvName : String) (maxRows rowOffset : Nat) (hasTypeCol : Bool)
    (h0 : ¬ ((filterTextRows hasTypeCol df).take maxRows).isEmpty = true)
    (h1 : ¬ (ingestNewRows state df csvName maxRows rowOffset
      hasTypeCol).isEmpty = true) :
    addDataframe embed uids state df csvName maxRows rowOffset hasTypeCol =
      ⟨indexUpsert state
          (processNewRows embed uids csvName
            (ingestNewRows state df csvName maxRows rowOffset hasTypeCol)
            0).1,
        (processNewRows embed uids csvName
          (ingestNewRows state df csvName maxRows rowOffset hasTypeCol)
          0).2.1⟩ := by
  unfold addDataframe
  rw [if_neg h0, if_neg h1]

/-- add_dataframe only ever calls the embedding model on rows whose key
the index does not already hold: re-ingestion makes no embedding call for
an already-present key. -/
theorem addDataframe_embeds_only_new (embed : String → Option (List ℚ))
    (uids : Nat → String) (state : List VectorRecord) (df : List SurveyRow)
    (csvName : String) (maxRows rowOffset : Nat) (hasTypeCol : Bool) :
    ∀ k ∈ (addDataframe embed uids state df csvName maxRows rowOffset
      hasTypeCol).embeddedKeys, indexHasKey state k = false := by
  intro k hk
  by_cases h0 : ((filterTextRows hasTypeCol df).take maxRows).isEmpty = true
  · rw [addDataframe_empty embed uids state df csvName maxRows rowOffset
      hasTypeCol h0] at hk
    exact absurd hk (List.not_mem_nil k)
  · by_cases h1 : (ingestNewRows state df csvName maxRows rowOffset
      hasTypeCol).isEmpty = true
    · rw [addDataframe_nonew embed uids state df csvName maxRows rowOffset
        hasTypeCol h1] at hk
      exact absurd hk (List.not_mem_nil k)
    · rw [addDataframe_main embed uids state df csvName maxRows rowOffset
        hasTypeCol h0 h1] at hk
      rw [show (⟨indexUpsert state
          (processNewRows embed uids csvName
            (ingestNewRows state df csvName maxRows rowOffset hasTypeCol)
            0).1,
          (processNewRows embed uids csvName
            (ingestNewRows state df csvName maxRows rowOffset hasTypeCol)
            0).2.1⟩ : IngestResult).embeddedKeys =
          (processNewRows embed uids csvName
            (ingestNewRows state df csvName maxRows rowOffset hasTypeCol)
            0).2.1 from rfl] at hk
      rw [processNewRows_keys] at hk
      obtain ⟨p, hp, hkey⟩ := List.mem_map.mp hk
      subst hkey
      exact ingestNewRows_not_present state df csvName maxRows rowOffset
        hasTypeCol p hp

/-- Running add_dataframe a second time on the state the first run
produced does not change the index: the keys the first run stored are
skipped, and the rows the first run failed to embed fail again (the
embedding model is a deterministic function), leaving nothing to upsert. -/
theorem addDataframe_idem (embed : String → Option (List ℚ))
    (uids uids2 : Nat → String) (state : List VectorRecord)
    (df : List SurveyRow) (csvName : String) (maxRows rowOffset : Nat)
    (hasTypeCol : Bool) :
    (addDataframe embed uids2
        (addDataframe embed uids state df csvName maxRows rowOffset
          hasTypeCol).state
        df csvName maxRows rowOffset hasTypeCol).state =
      (addDataframe embed uids state df csvName maxRows rowOffset
        hasTypeCol).state := by
  by_cases h0 : ((filterTextRows hasTypeCol df).take maxRows).isEmpty = true
  · rw [addDataframe_empty embed uids state df csvName maxRows rowOffset
      hasTypeCol h0]
    rw [addDataframe_empty embed uids2 state df csvName maxRows rowOffset
      hasTypeCol h0]
  · by_cases h1 : (ingestNewRows state df csvName maxRows rowOffset
      hasTypeCol).isEmpty = true
    · rw [addDataframe_nonew embed uids state df csvName maxRows rowOffset
        hasTypeCol h1]
      rw [addDataframe_nonew embed uids2 state df csvName maxRows rowOffset
        hasTypeCol h1]
    · rw [addDataframe_main embed uids state df csvName maxRows rowOffset
        hasTypeCol h0 h1]
      show (addDataframe embed uids2
        (indexUpsert state
          (processNewRows embed uids csvName
            (ingestNewRows state df csvName maxRows rowOffset hasTypeCol)
            0).1)
        df csvName maxRows rowOffset hasTypeCol).state =
        indexUpsert state
          (processNewRows embed uids csvName
            (ingestNewRows state df csvName maxRows rowOffset hasTypeCol)
            0).1
      set pending1 := (processNewRows embed uids csvName
        (ingestNewRows state df csvName maxRows rowOffset hasTypeCol) 0).1
      by_cases h2 : (ingestNewRows (indexUpsert state pending1) df csvName
          maxRows rowOffset hasTypeCol).isEmpty = true
      · rw [addDataframe_nonew embed uids2 (indexUpsert state pending1) df
          csvName maxRows rowOffset hasTypeCol h2]
      · rw [addDataframe_main embed uids2 (indexUpsert state pending1) df
          csvName maxRows rowOffset hasTypeCol h0 h2]
        have hallfail : ∀ p ∈ ingestNewRows (indexUpsert state pending1) df
            csvName maxRows rowOffset hasTypeCol,
            embed (p.1.TEXT_ANSWER.getD "") = none := by
          intro p hp
          by_contra hne
          have habs1 : indexHasKey (indexUpsert state pending1) p.2 = false :=
            ingestNewRows_not_present (indexUpsert state pending1) df csvName
              maxRows rowOffset hasTypeCol p hp
          have hcomb : ¬ (indexHasKey state p.2 = true ∨
              ∃ r ∈ pending1, r.key = p.2) := by
            intro hcon
            have := (indexHasKey_upsert state pending1 p.2).mpr hcon
            rw [habs1] at this
            exact Bool.false_ne_true this
          push_neg at hcomb
          obtain ⟨hkstate, hnp⟩ := hcomb
          have hkstate2 : indexHasKey state p.2 = false :=
            Bool.eq_false_iff.mpr hkstate
          have hkeyed : p ∈ ingestKeyed df csvName maxRows rowOffset
              hasTypeCol := by
            have := hp
            unfold ingestNewRows at this
            exact (List.mem_filter.mp this).1
          have hnew1 : p ∈ ingestNewRows state df csvName maxRows rowOffset
              hasTypeCol :=
            ingestNewRows_of_absent state df csvName maxRows rowOffset
              hasTypeCol p hkeyed hkstate2
          have hmem : p.2 ∈ pending1.map VectorRecord.key :=
            processNewRows_success_mem embed uids csvName
              (ingestNewRows state df csvName maxRows rowOffset hasTypeCol)
              0 p.1 p.2 (by rwa [Prod.mk.eta]) hne
          obtain ⟨r, hr, hkr⟩ := List.mem_map.mp hmem
          exact hnp r hr hkr
        rw [processNewRows_allfail embed uids2 csvName _ 0 hallfail,
          indexUpsert_nil]

/-- C5: idempotent ingestion with deterministic keys.  The first
add_dataframe run embeds only rows whose key the existence check reports
absent; running the same chunk again on the resulting index state leaves
the state unchanged, and every embedding call of the second run (like the
first) is for a key not already present in the state it ran against. -/
theorem C5_theorem (embed : String → Option (List ℚ))
    (uids uids2 : Nat → String) (state : List VectorRecord)
    (df : List SurveyRow) (csvName : String) (maxRows rowOffset : Nat)
    (hasTypeCol : Bool) :
    (addDataframe embed uids2
        (addDataframe embed uids state df csvName maxRows rowOffset
          hasTypeCol).state
        df csvName maxRows rowOffset hasTypeCol).state =
      (addDataframe embed uids state df csvName maxRows rowOffset
        hasTypeCol).state ∧
    (∀ k ∈ (addDataframe embed uids state df csvName maxRows rowOffset
      hasTypeCol).embeddedKeys, indexHasKey state k = false) ∧
    (∀ k ∈ (addDataframe embed uids2
        (addDataframe embed uids state df csvName maxRows rowOffset
          hasTypeCol).state
        df csvName maxRows rowOffset hasTypeCol).embeddedKeys,
      indexHasKey (addDataframe embed uids state df csvName maxRows
        rowOffset hasTypeCol).state k = false) :=
  ⟨addDataframe_idem embed uids uids2 state df csvName maxRows rowOffset
      hasTypeCol,
    addDataframe_embeds_only_new embed uids state df csvName maxRows
      rowOffset hasTypeCol,
    addDataframe_embeds_only_new embed uids2 _ df csvName maxRows
      rowOffset hasTypeCol⟩

/-- A concrete survey row with a textual answer. -/
def sampleRow : SurveyRow :=
  { TEXT_ANSWER := some "hello", QUESTION := "how", EVENTNAME := "ev",
    EVENTCODE := "e1", QUESTION_TYPE := "Text", NPS_GROUP := "",
    RESPONSEID := "r1" }

/-- C5 witness: ingesting a one-row chunk twice over an empty index gives
the same state as ingesting it once. -/
theorem C5_witness :
    (addDataframe (fun _ => some [1]) (fun _ => "v")
        (addDataframe (fun _ => some [1]) (fun _ => "u") [] [sampleRow]
          "f" 10 0 true).state
        [sampleRow] "f" 10 0 true).state =
      (addDataframe (fun _ => some [1]) (fun _ => "u") [] [sampleRow]
        "f" 10 0 true).state :=
  (C5_theorem (fun _ => some [1]) (fun _ => "u") (fun _ => "v") []
    [sampleRow] "f" 10 0 true).1

/-! ### Citation formatting and resolution
(format_results_with_ids, semantic_search_tool.py lines 20-44;
resolve_citations, citation_resolver.py lines 8-43) -/

/-- A row of the stored session table: a search hit with the ephemeral
citation id column added by format_results_with_ids. -/
structure ResultRow where
  id : String
  uid : String
  similarity_score : ℚ
  text_answer : String
  question : String
  event_name : String
  event_code : String
  question_type : String
  nps_group : String
  response_id : String
  csv_source : String
  deriving Repr, DecidableEq

/-- format_results_with_ids, id-column part (semantic_search_tool.py
lines 33-34): one freshly generated id per row; the random generation is
modelled by an explicit id list, one entry per row. -/
def formatResults (ids : List String) (df : List SearchHit) :
    List ResultRow :=
  List.zipWith (fun i h =>
    { id := i, uid := h.uid, similarity_score := h.similarity_score,
      text_answer := h.text_answer, question := h.question,
      event_name := h.event_name, event_code := h.event_code,
      question_type := h.question_type, nps_group := h.nps_group,
      response_id := h.response_id, csv_source := h.csv_source }) ids df

/-- A theme of the structured analysis output (analysis_output.py). -/
structure Theme where
  name : String
  summary : String
  supporting_citations : List String
  deriving Repr, DecidableEq

/-- The structured analysis output (analysis_output.py). -/
structure AnalysisOutput where
  summary : String
  themes : List Theme
  deriving Repr, DecidableEq

/-- One resolved citation record (citation_resolver.py lines 30-41). -/
structure CitedResponse where
  response_id : String
  survey_id : String
  game_name : String
  response_text : String
  question : String
  similarity_score : ℚ
  excerpt : String
  theme : String
  deriving Repr, DecidableEq

/-- The record built from a matched table row (citation_resolver.py
lines 30-41): response_text and excerpt both carry the row text_answer. -/
def rowToCited (themeName : String) (r : ResultRow) : CitedResponse :=
  { response_id := r.response_id
    survey_id := r.csv_source
    game_name := r.event_name
    response_text := r.text_answer
    question := r.question
    similarity_score := r.similarity_score
    excerpt := r.text_answer
    theme := themeName }

/-- The citations one theme resolves (citation_resolver.py lines 26-41):
for each cited id, the FIRST table row whose id column matches (iloc[0]
of the match) yields a record; unmatched ids are dropped. -/
def resolveTheme (table : List ResultRow) (th : Theme) :
    List CitedResponse :=
  th.supporting_citations.filterMap (fun cid =>
    (table.find? (fun r => r.id = cid)).map (rowToCited th.name))

/-- resolve_citations (citation_resolver.py lines 8-43): an empty table
returns nothing; otherwise themes are processed in order, citations in
list order within each theme. -/
def resolveCitations (output : AnalysisOutput) (table : List ResultRow) :
    List CitedResponse :=
  if table.isEmpty then []
  else (output.themes.map (resolveTheme table)).flatten

/-- The output records one theme derives from one particular cited id:
the per-theme resolution restricted to the occurrences of that id in the
citation list. -/
def recordsForCitation (table : List ResultRow) (th : Theme)
    (cid : String) : List CitedResponse :=
  (th.supporting_citations.filter (fun c => c = cid)).filterMap (fun c =>
    (table.find? (fun r => r.id = c)).map (rowToCited th.name))

theorem formatResults_ids (ids : List String) :
    ∀ df : List SearchHit,
      (formatResults ids df).map (fun r => r.id) = ids.take df.length := by
  induction ids with
  | nil => intro df; simp [formatResults]
  | cons i is ih =>
    intro df
    cases df with
    | nil => simp [formatResults]
    | cons h hs =>
      simp only [formatResults, List.zipWith_cons_cons, List.map_cons,
        List.length_cons, List.take_succ_cons]
      exact congrArg (List.cons i) (ih hs)

theorem find?_id_eq_self (l : List ResultRow)
    (hnd : (l.map (fun r => r.id)).Nodup) (a : ResultRow) (ha : a ∈ l) :
    l.find? (fun x => x.id = a.id) = some a := by
  induction l with
  | nil => cases ha
  | cons x xs ih =>
    rw [List.map_cons, List.nodup_cons] at hnd
    rcases List.mem_cons.mp ha with rfl | hmem
    · rw [List.find?_cons_of_pos _ (by simp)]
    · rw [List.find?_cons_of_neg, ih hnd.2 hmem]
      simp only [decide_eq_true_eq]
      intro hcon
      exact hnd.1 (hcon ▸ List.mem_map_of_mem (fun r => r.id) hmem)

/-- C6 counterexample: two stored rows that received the same random
citation id.  The second row is assigned id abcde and that id is cited,
yet resolution returns the first row, whose text differs from the
second row's text: the round trip fails without a no-collision
assumption. -/
theorem C6_counterexample :
    (formatResults ["abcde", "abcde"]
        [{ uid := "x1", similarity_score := mkRat 1 2,
           text_answer := "first", question := "", event_name := "",
           event_code := "", question_type := "", nps_group := "",
           response_id := "r1", csv_source := "" },
         { uid := "x2", similarity_score := mkRat 1 4,
           text_answer := "second", question := "", event_name := "",
           event_code := "", question_type := "", nps_group := "",
           response_id := "r2", csv_source := "" }]).map
      (fun r => (r.id, r.text_answer)) =
        [("abcde", "first"), ("abcde", "second")] ∧
    (resolveCitations
        ⟨"s", [⟨"T", "t", ["abcde"]⟩]⟩
        (formatResults ["abcde", "abcde"]
          [{ uid := "x1", similarity_score := mkRat 1 2,
             text_answer := "first", question := "", event_name := "",
             event_code := "", question_type := "", nps_group := "",
             response_id := "r1", csv_source := "" },
           { uid := "x2", similarity_score := mkRat 1 4,
             text_answer := "second", question := "", event_name := "",
             event_code := "", question_type := "", nps_group := "",
             response_id := "r2", csv_source := "" }])).map
      (fun c => c.response_text) = ["first"] := by
  constructor
  · decide
  · decide

/-- C6 amended: provided the ids assigned at formatting time are pairwise
distinct, every stored row round-trips — citing its id makes the resolver
emit a record whose response_text (and excerpt) equal the text_answer
stored for exactly that row. -/
theorem C6_theorem (ids : List String) (df : List SearchHit)
    (out : AnalysisOutput) (th : Theme) (row : ResultRow)
    (hnd : ids.Nodup) (hrow : row ∈ formatResults ids df)
    (hth : th ∈ out.themes) (hc : row.id ∈ th.supporting_citations) :
    ∃ c ∈ resolveCitations out (formatResults ids df),
      c.response_text = row.text_answer ∧ c.excerpt = row.text_answer ∧
      c.theme = th.name := by
  have hndids : ((formatResults ids df).map (fun r => r.id)).Nodup := by
    rw [formatResults_ids]
    exact hnd.sublist (List.take_sublist _ _)
  have hfind : (formatResults ids df).find? (fun x => x.id = row.id) =
      some row := find?_id_eq_self (formatResults ids df) hndids row hrow
  refine ⟨rowToCited th.name row, ?_, rfl, rfl, rfl⟩
  unfold resolveCitations
  rw [if_neg (by
    intro hcon
    rw [List.isEmpty_iff] at hcon
    rw [hcon] at hrow
    exact List.not_mem_nil row hrow)]
  rw [List.mem_flatten]
  refine ⟨resolveTheme (formatResults ids df) th,
    List.mem_map_of_mem _ hth, ?_⟩
  unfold resolveTheme
  rw [List.mem_filterMap]
  exact ⟨row.id, hc, by rw [hfind]; rfl⟩

/-- C6 witness: with distinct ids a1 and b2, citing b2 resolves to the
second row's text. -/
theorem C6_witness :
    ∃ c ∈ resolveCitations ⟨"s", [⟨"T", "t", ["b2"]⟩]⟩
        (formatResults ["a1", "b2"]
          [{ uid := "x1", similarity_score := mkRat 1 2,
             text_answer := "first", question := "", event_name := "",
             event_code := "", question_type := "", nps_group := "",
             response_id := "r1", csv_source := "" },
           { uid := "x2", similarity_score := mkRat 1 4,
             text_answer := "second", question := "", event_name := "",
             event_code := "", question_type := "", nps_group := "",
             response_id := "r2", csv_source := "" }]),
      c.response_text = "second" ∧ c.excerpt = "second" ∧
      c.theme = "T" :=
  C6_theorem ["a1", "b2"]
    [{ uid := "x1", similarity_score := mkRat 1 2,
       text_answer := "first", question := "", event_name := "",
       event_code := "", question_type := "", nps_group := "",
       response_id := "r1", csv_source := "" },
     { uid := "x2", similarity_score := mkRat 1 4,
       text_answer := "second", question := "", event_name := "",
       event_code := "", question_type := "", nps_group := "",
       response_id := "r2", csv_source := "" }]
    ⟨"s", [⟨"T", "t", ["b2"]⟩]⟩ ⟨"T", "t", ["b2"]⟩
    { id := "b2", uid := "x2", similarity_score := mkRat 1 4,
      text_answer := "second", question := "", event_name := "",
      event_code := "", question_type := "", nps_group := "",
      response_id := "r2", csv_source := "" }
    (by decide) (by decide) (by decide) (by decide)

theorem nodup_filter_eq_length_le (l : List String) (cid : String)
    (hnd : l.Nodup) : (l.filter (fun c => c = cid)).length ≤ 1 := by
  induction l with
  | nil => simp
  | cons x xs ih =>
    rw [List.nodup_cons] at hnd
    by_cases hx : x = cid
    · rw [List.filter_cons_of_pos (by simp [hx])]
      have hrest : xs.filter (fun c => c = cid) = [] := by
        rw [List.filter_eq_nil_iff]
        intro a ha
        simp only [decide_eq_true_eq]
        intro hcon
        exact hnd.1 ((hcon.trans hx.symm) ▸ ha)
      rw [hrest]
      simp
    · rw [List.filter_cons_of_neg (by simp [hx])]
      exact ih hnd.2

/-- A single row with id abcde, stored once; a theme citing abcde
twice. -/
def dupCitedTable : List ResultRow :=
  [{ id := "abcde", uid := "x1", similarity_score := mkRat 1 2,
     text_answer := "only", question := "", event_name := "",
     event_code := "", question_type := "", nps_group := "",
     response_id := "r1", csv_source := "" }]

/-- C10 counterexample: a theme whose supporting_citations list repeats
the id abcde; the resolver loops over every list entry, so the single
(theme, citation id) pair yields two identical output records — more
than one. -/
theorem C10_counterexample :
    (⟨"T", "t", ["abcde", "abcde"]⟩ : Theme).supporting_citations =
      ["abcde", "abcde"] ∧
    (resolveCitations ⟨"s", [⟨"T", "t", ["abcde", "abcde"]⟩]⟩
        dupCitedTable).map (fun c => (c.theme, c.response_text)) =
      [("T", "only"), ("T", "only")] ∧
    ¬ (resolveCitations ⟨"s", [⟨"T", "t", ["abcde", "abcde"]⟩]⟩
        dupCitedTable).length ≤ 1 := by
  refine ⟨rfl, by decide, by decide⟩

/-- C10 amended: every record the resolver emits comes from the FIRST
table row whose id column equals some cited id of some theme (any row
before it in the table has a different id, so a later colliding row is
never the source); and provided a theme's supporting_citations list
itself contains no duplicate entry, that theme derives at most one
record from any one citation id. -/
theorem C10_theorem (out : AnalysisOutput) (table : List ResultRow)
    (th : Theme) (cid : String) :
    (∀ rec ∈ resolveCitations out table, ∃ t ∈ out.themes,
      ∃ c ∈ t.supporting_citations, ∃ row,
        table.find? (fun r => r.id = c) = some row ∧
        rec = rowToCited t.name row) ∧
    (∀ c row, table.find? (fun r => r.id = c) = some row →
      row.id = c ∧ ∃ pre post, table = pre ++ row :: post ∧
        ∀ r ∈ pre, r.id ≠ c) ∧
    (th.supporting_citations.Nodup →
      (recordsForCitation table th cid).length ≤ 1) := by
  refine ⟨?_, ?_, ?_⟩
  · intro rec hrec
    unfold resolveCitations at hrec
    by_cases hemp : table.isEmpty = true
    · rw [if_pos hemp] at hrec
      exact absurd hrec (List.not_mem_nil rec)
    · rw [if_neg hemp] at hrec
      rw [List.mem_flatten] at hrec
      obtain ⟨l, hl, hrecl⟩ := hrec
      obtain ⟨t, ht, rfl⟩ := List.mem_map.mp hl
      unfold resolveTheme at hrecl
      rw [List.mem_filterMap] at hrecl
      obtain ⟨c, hc, hmapped⟩ := hrecl
      cases hfind : table.find? (fun r => r.id = c) with
      | none => rw [hfind] at hmapped; cases hmapped
      | some row =>
        rw [hfind] at hmapped
        refine ⟨t, ht, c, hc, row, hfind, ?_⟩
        cases hmapped
        rfl
  · intro c row hfind
    rw [List.find?_eq_some] at hfind
    obtain ⟨hpred, pre, post, hsplit, hpre⟩ := hfind
    refine ⟨of_decide_eq_true hpred, pre, post, hsplit, ?_⟩
    intro r hr
    have := hpre r hr
    simp only [Bool.not_eq_eq_eq_not, Bool.not_true,
      decide_eq_false_iff_not] at this
    exact this
  · intro hnd
    unfold recordsForCitation
    calc ((th.supporting_citations.filter (fun c => c = cid)).filterMap
          (fun c => (table.find? (fun r => r.id = c)).map
            (rowToCited th.name))).length
        ≤ (th.supporting_citations.filter (fun c => c = cid)).length :=
          List.length_filterMap_le _ _
      _ ≤ 1 := nodup_filter_eq_length_le th.supporting_citations cid hnd

/-- C10 witness: a theme with duplicate-free citations derives at most
one record for the id abcde from the one-row table. -/
def singleCiteTheme : Theme := ⟨"T", "t", ["abcde"]⟩

def singleCiteOutput : AnalysisOutput := ⟨"s", [singleCiteTheme]⟩

theorem C10_witness :
    (recordsForCitation dupCitedTable singleCiteTheme "abcde").length ≤ 1 :=
  (C10_theorem singleCiteOutput dupCitedTable
    singleCiteTheme "abcde").2.2 (by decide)

end SurveyAnalysis
